import Mathlib

/-!
Verification of the Career-Pulse-India mobile client's state logic.

The embedding below translates the client's data model and the handlers
that carry actual logic: `toggleStepCompletion` / `isStepCompleted` and the
per-step in-flight guard from `frontend/app/roadmap/[id].tsx`, the session
bootstrap routing from `frontend/app/index.tsx` combined with the dashboard's
`initializeData`, and the `handleLogin` / `handleRegister` + `validateForm`
handlers of the auth screens.

JavaScript numbers are modelled as exact rationals extended with the two
non-finite results that the code can actually produce (`NaN` from `0/0`,
`Infinity` from `k/0` with `k > 0`).  The quantities involved are small
integer counts divided and scaled by 100, so none of the claims checked here
(sign, the bound 100, equality with 100, NaN/Infinity) depends on binary
floating-point rounding.
-/

/-- Interface `RoadmapStep` of `roadmap/[id].tsx`. -/
structure RoadmapStep where
  id : String
  title : String
  description : String
  resources : List String
  duration : String
deriving DecidableEq, Repr

/-- Interface `CareerRoadmap` of `roadmap/[id].tsx`. -/
structure CareerRoadmap where
  id : String
  title : String
  stream : String
  description : String
  steps : List RoadmapStep
  estimated_duration : String
  difficulty_level : String
deriving DecidableEq, Repr

/-- A JavaScript number as produced by the progress computation: a finite
rational, `NaN`, or positive `Infinity`. -/
inductive JSNum where
  | num (q : ℚ)
  | nan
  | inf
deriving DecidableEq, Repr

/-- JavaScript division `a / b` for nonnegative integer operands:
`0 / 0` is `NaN`, `k / 0` with `k > 0` is `Infinity`, otherwise exact. -/
def jsDivNat (a b : ℕ) : JSNum :=
  if b = 0 then (if a = 0 then JSNum.nan else JSNum.inf)
  else JSNum.num ((a : ℚ) / (b : ℚ))

/-- JavaScript multiplication of the division result by the literal `100`:
`NaN` and `Infinity` absorb. -/
def jsMul100 : JSNum → JSNum
  | JSNum.num q => JSNum.num (q * 100)
  | JSNum.nan => JSNum.nan
  | JSNum.inf => JSNum.inf

/-- Interface `UserProgress` of `roadmap/[id].tsx`. -/
structure UserProgress where
  user_id : String
  career_id : String
  completed_steps : List String
  progress_percentage : JSNum
deriving DecidableEq, Repr

/-- Interface `User` of the dashboard / login screens; `selected_stream` is
optional there. -/
structure User where
  id : String
  name : String
  email : String
  selected_stream : Option String
deriving DecidableEq, Repr

/-- Outcome of one `fetch` call: `ok` response, non-`ok` response, or a
thrown network error. -/
inductive FetchOutcome where
  | ok
  | notOk
  | networkFailed
deriving DecidableEq, Repr

/-- Observable result of one `toggleStepCompletion` invocation:
the local progress state afterwards, the alert shown (if any), how many
`POST /api/progress` requests the invocation issued, and the final value of
`updatingStep` (reset to `null` in the `finally` block). -/
structure ToggleResult where
  userProgress : Option UserProgress
  alertShown : Option String
  requestsSent : ℕ
  updatingStep : Option String
deriving DecidableEq, Repr

/-- `toggleStepCompletion` of `roadmap/[id].tsx` (lines 118-167).  With a
token it sends one `POST /api/progress`; on an `ok` response and a non-null
local `userProgress` it appends `stepId` (when `completed`) or filters it out
(when not), recomputes `progress_percentage` as
`(updatedSteps.length / totalSteps) * 100` with
`totalSteps = roadmap?.steps.length || 0`, and stores the new record; on a
non-`ok` response or a thrown error it alerts and leaves the state alone. -/
def toggleStepCompletion (token : Option String) (roadmap : Option CareerRoadmap)
    (userProgress : Option UserProgress) (stepId : String) (completed : Bool)
    (outcome : FetchOutcome) : ToggleResult :=
  match token with
  | none =>
      { userProgress := userProgress, alertShown := some "Authentication required",
        requestsSent := 0, updatingStep := none }
  | some _ =>
      match outcome with
      | FetchOutcome.ok =>
          match userProgress with
          | some up =>
              let updatedSteps : List String :=
                if completed then up.completed_steps ++ [stepId]
                else up.completed_steps.filter (fun s => s ≠ stepId)
              let totalSteps : ℕ := (roadmap.map (fun r => r.steps.length)).getD 0
              let newProgress : JSNum := jsMul100 (jsDivNat updatedSteps.length totalSteps)
              { userProgress := some { up with completed_steps := updatedSteps,
                                               progress_percentage := newProgress },
                alertShown := none, requestsSent := 1, updatingStep := none }
          | none =>
              { userProgress := none, alertShown := none,
                requestsSent := 1, updatingStep := none }
      | FetchOutcome.notOk =>
          { userProgress := userProgress, alertShown := some "Failed to update progress",
            requestsSent := 1, updatingStep := none }
      | FetchOutcome.networkFailed =>
          { userProgress := userProgress, alertShown := some "Network error occurred",
            requestsSent := 1, updatingStep := none }

/-- `isStepCompleted` of `roadmap/[id].tsx` (lines 179-181):
`userProgress?.completed_steps.includes(stepId) || false`. -/
def isStepCompleted (userProgress : Option UserProgress) (stepId : String) : Bool :=
  (userProgress.map (fun up => up.completed_steps.contains stepId)).getD false

/-- UI state relevant to the per-step in-flight guard: the single
`updatingStep` value and the multiset (here: list) of step ids with a toggle
request currently in flight. -/
structure GuardState where
  updatingStep : Option String
  inFlight : List String
deriving DecidableEq, Repr

/-- Initial guard state: `updatingStep = null`, nothing in flight. -/
def initGuard : GuardState := { updatingStep := none, inFlight := [] }

/-- The checkbox for a step is rendered with `disabled={updatingStep === step.id}`
(line 363), so a press is possible exactly when `updatingStep` differs from
the step's id. -/
def pressEnabled (st : GuardState) (stepId : String) : Bool :=
  st.updatingStep ≠ some stepId

/-- Pressing a step's checkbox: if enabled, `toggleStepCompletion` starts,
which first runs `setUpdatingStep(stepId)` (line 119) and puts one request in
flight; a disabled press does nothing. -/
def pressStep (st : GuardState) (stepId : String) : GuardState :=
  if pressEnabled st stepId then
    { updatingStep := some stepId, inFlight := st.inFlight ++ [stepId] }
  else st

/-- A toggle request resolving (success or failure): its `finally` block runs
`setUpdatingStep(null)` (line 166) unconditionally, and the request leaves the
in-flight set. -/
def resolveStep (st : GuardState) (stepId : String) : GuardState :=
  if st.inFlight.contains stepId then
    { updatingStep := none, inFlight := st.inFlight.erase stepId }
  else st

/-- The two persisted values of the credential store:
`auth_token` and the serialized `user_data`. -/
structure CredentialStore where
  auth_token : Option String
  user_data : Option User
deriving DecidableEq, Repr

/-- The screens a navigation can land on during session bootstrap. -/
inductive Route where
  | landing
  | login
  | streamSelection
  | dashboard
deriving DecidableEq, Repr

/-- JavaScript truthiness of an optional string field:
`undefined` and the empty string are falsy. -/
def strTruthy : Option String → Bool
  | none => false
  | some s => s ≠ ""

/-- `checkAuthStatus` of `frontend/app/index.tsx` (lines 52-62): read the
token; if present, `router.replace('/dashboard')`; otherwise stay on the
landing page.  A store read error is caught, logged and swallowed
(`storeOk = false` models `AsyncStorage.getItem` throwing). -/
def checkAuthStatus (storeOk : Bool) (store : CredentialStore) : Route :=
  if storeOk then
    match store.auth_token with
    | some _ => Route.dashboard
    | none => Route.landing
  else Route.landing

/-- The routing part of the dashboard's `initializeData`
(`roadmap/[id].tsx` lines 756-783): missing `user_data` or token sends the
user to `/auth/login`; a falsy `selected_stream` sends them to
`/stream-selection`; otherwise they stay on the dashboard. -/
def initializeDataRoute (store : CredentialStore) : Route :=
  match store.user_data, store.auth_token with
  | some u, some _ =>
      if strTruthy u.selected_stream then Route.dashboard else Route.streamSelection
  | _, _ => Route.login

/-- App-start routing: the landing page's `checkAuthStatus` runs first; when
it lands on the dashboard, the dashboard's `initializeData` immediately
re-routes from the stored credentials. -/
def sessionBootstrap (storeOk : Bool) (store : CredentialStore) : Route :=
  match checkAuthStatus storeOk store with
  | Route.dashboard => initializeDataRoute store
  | r => r

/-- What the server answers to an auth request. -/
inductive ServerResult where
  | success (token : String) (user : User)
  | rejected (detail : Option String)
  | networkFailed
deriving DecidableEq, Repr

/-- Observable result of one `handleLogin` / `handleRegister` invocation:
whether a network request was issued, what was written to the credential
store, the alert shown (if any), and the navigation performed (if any). -/
structure AuthOutcome where
  requestSent : Bool
  storedToken : Option String
  storedUser : Option User
  alertShown : Option String
  route : Option Route
deriving DecidableEq, Repr

/-- JavaScript `s.includes(c)` for a single-character argument:
containment of the character in the string. -/
def jsIncludesChar (s : String) (c : Char) : Bool :=
  s.data.contains c

/-- JavaScript `d || fallback` on the optional `data.detail` string. -/
def jsOrString (d : Option String) (fallback : String) : String :=
  match d with
  | some s => if s = "" then fallback else s
  | none => fallback

/-- `handleLogin` of the login screen (`src/unnamed/part_001` lines 57-105):
local validation first (non-empty fields, email contains `@`), then one
`POST /api/auth/login`; on `ok` persist token and user and route by
`selected_stream`; on rejection alert `data.detail || 'Invalid credentials'`
and persist nothing; on a network error alert generically. -/
def handleLogin (email password : String) (server : ServerResult) : AuthOutcome :=
  if email = "" ∨ password = "" then
    { requestSent := false, storedToken := none, storedUser := none,
      alertShown := some "Please fill in all fields", route := none }
  else if ¬ jsIncludesChar email '@' then
    { requestSent := false, storedToken := none, storedUser := none,
      alertShown := some "Please enter a valid email address", route := none }
  else
    match server with
    | ServerResult.success token u =>
        { requestSent := true, storedToken := some token, storedUser := some u,
          alertShown := none,
          route := some (if strTruthy u.selected_stream then Route.dashboard
                         else Route.streamSelection) }
    | ServerResult.rejected detail =>
        { requestSent := true, storedToken := none, storedUser := none,
          alertShown := some ("Login Failed: " ++ jsOrString detail "Invalid credentials"),
          route := none }
    | ServerResult.networkFailed =>
        { requestSent := true, storedToken := none, storedUser := none,
          alertShown := some "Network error. Please try again.", route := none }

/-- The four fields of the registration form. -/
structure RegisterForm where
  name : String
  email : String
  password : String
  confirmPassword : String
deriving DecidableEq, Repr

/-- `validateForm` of the register screen (`src/unnamed/part_000` lines
33-60), including the alert it raises: the first failing check among
all-fields-non-empty, name at least 2 characters, email contains `@`,
password at least 6 characters, password equals confirmation. -/
def validateFormAlert (f : RegisterForm) : Option String :=
  if f.name = "" ∨ f.email = "" ∨ f.password = "" ∨ f.confirmPassword = "" then
    some "Please fill in all fields"
  else if f.name.length < 2 then
    some "Name must be at least 2 characters long"
  else if ¬ jsIncludesChar f.email '@' then
    some "Please enter a valid email address"
  else if f.password.length < 6 then
    some "Password must be at least 6 characters long"
  else if f.password ≠ f.confirmPassword then
    some "Passwords do not match"
  else none

/-- The boolean `validateForm` returns: `true` exactly when no check alerted. -/
def validateForm (f : RegisterForm) : Bool :=
  (validateFormAlert f).isNone

/-- `handleRegister` of the register screen (`src/unnamed/part_000` lines
62-107): returns without any network call when `validateForm` fails;
otherwise one `POST /api/auth/register`, persisting token and user and
routing to stream selection on `ok`, alerting otherwise. -/
def handleRegister (f : RegisterForm) (server : ServerResult) : AuthOutcome :=
  if validateForm f then
    match server with
    | ServerResult.success token u =>
        { requestSent := true, storedToken := some token, storedUser := some u,
          alertShown := some "Account created successfully!",
          route := some Route.streamSelection }
    | ServerResult.rejected detail =>
        { requestSent := true, storedToken := none, storedUser := none,
          alertShown := some ("Registration Failed: " ++ jsOrString detail "Something went wrong"),
          route := none }
    | ServerResult.networkFailed =>
        { requestSent := true, storedToken := none, storedUser := none,
          alertShown := some "Network error. Please try again.", route := none }
  else
    { requestSent := false, storedToken := none, storedUser := none,
      alertShown := validateFormAlert f, route := none }

/-- Sample step, for concrete evaluations. -/
def step1 : RoadmapStep :=
  { id := "s1", title := "Step 1", description := "d", resources := [], duration := "1w" }

/-- Sample one-step roadmap. -/
def roadmap1 : CareerRoadmap :=
  { id := "r1", title := "R", stream := "Science", description := "d",
    steps := [step1], estimated_duration := "6m", difficulty_level := "Beginner" }

/-- Sample roadmap with an empty step list. -/
def roadmap0 : CareerRoadmap :=
  { id := "r0", title := "R0", stream := "Science", description := "d",
    steps := [], estimated_duration := "6m", difficulty_level := "Beginner" }

/-- Sample progress record with nothing completed. -/
def progress0 : UserProgress :=
  { user_id := "u1", career_id := "r1", completed_steps := [],
    progress_percentage := JSNum.num 0 }

/-- Sample progress record with step `s1` completed. -/
def progress1 : UserProgress :=
  { user_id := "u1", career_id := "r1", completed_steps := ["s1"],
    progress_percentage := JSNum.num 100 }

/-- Sample user without a selected stream. -/
def userNoStream : User :=
  { id := "u1", name := "Ann", email := "a@b.c", selected_stream := none }

/-- Sample user with a selected stream. -/
def userWithStream : User :=
  { id := "u1", name := "Ann", email := "a@b.c", selected_stream := some "Science" }

/-- C10: with no loaded `UserProgress` record, a successful `toggleStep`
performs no local update at all — the state stays `none` — and
`isStepCompleted` reports every step as not completed. -/
theorem c10_null_progress_no_update (token : String) (roadmap : Option CareerRoadmap)
    (stepId : String) (completed : Bool) :
    (toggleStepCompletion (some token) roadmap none stepId completed
        FetchOutcome.ok).userProgress = none ∧
    ∀ s : String, isStepCompleted none s = false :=
  ⟨rfl, fun _ => rfl⟩

/-- C5: on a non-`ok` response and on a thrown network error alike,
`toggleStepCompletion` leaves the local progress state exactly as it was,
shows an error alert, and has issued exactly one request — nothing is
retried. -/
theorem c5_failure_leaves_state (token : String) (roadmap : Option CareerRoadmap)
    (userProgress : Option UserProgress) (stepId : String) (completed : Bool) :
    toggleStepCompletion (some token) roadmap userProgress stepId completed
        FetchOutcome.notOk =
      { userProgress := userProgress, alertShown := some "Failed to update progress",
        requestsSent := 1, updatingStep := none } ∧
    toggleStepCompletion (some token) roadmap userProgress stepId completed
        FetchOutcome.networkFailed =
      { userProgress := userProgress, alertShown := some "Network error occurred",
        requestsSent := 1, updatingStep := none } :=
  ⟨rfl, rfl⟩

/-- C3 fails on the code: starting from an empty completion list, toggling
step `s1` to completed twice (both requests succeeding) yields the list
`["s1", "s1"]`, not the list `["s1"]` that a single application yields —
the local update appends blindly instead of using set membership. -/
theorem c3_twice_appends_duplicate :
    ((toggleStepCompletion (some "t") (some roadmap1)
        (toggleStepCompletion (some "t") (some roadmap1) (some progress0) "s1" true
            FetchOutcome.ok).userProgress
        "s1" true FetchOutcome.ok).userProgress.map UserProgress.completed_steps) =
      some ["s1", "s1"] ∧
    ((toggleStepCompletion (some "t") (some roadmap1) (some progress0) "s1" true
        FetchOutcome.ok).userProgress.map UserProgress.completed_steps) = some ["s1"] ∧
    some ["s1", "s1"] ≠ some ["s1"] := by
  refine ⟨rfl, rfl, by decide⟩

/-- C3, amended: applying `toggleStep(id, true)` twice appends the id a
second time, so the resulting `completed_steps` list is the once-toggled
list with a duplicate appended; the two lists agree as sets of members, but
not as lists (and hence not in length). -/
theorem c3_amended_append_semantics (token : String) (roadmap : Option CareerRoadmap)
    (up : UserProgress) (stepId : String) :
    ∃ up1 up2,
      (toggleStepCompletion (some token) roadmap (some up) stepId true
          FetchOutcome.ok).userProgress = some up1 ∧
      (toggleStepCompletion (some token) roadmap (some up1) stepId true
          FetchOutcome.ok).userProgress = some up2 ∧
      up1.completed_steps = up.completed_steps ++ [stepId] ∧
      up2.completed_steps = up1.completed_steps ++ [stepId] ∧
      (∀ x : String, x ∈ up2.completed_steps ↔ x ∈ up1.completed_steps) := by
  refine ⟨_, _, rfl, rfl, rfl, rfl, ?_⟩
  intro x
  simp [toggleStepCompletion, List.mem_append]

/-- C4 fails on the code: starting from the state where `s1` is already in
`completed_steps`, toggling `s1` on (which appends a duplicate) and then off
(which filters out every occurrence) ends with the empty list, not with the
pre-toggle list `["s1"]`. -/
theorem c4_round_trip_fails_on_member :
    ((toggleStepCompletion (some "t") (some roadmap1)
        (toggleStepCompletion (some "t") (some roadmap1) (some progress1) "s1" true
            FetchOutcome.ok).userProgress
        "s1" false FetchOutcome.ok).userProgress.map UserProgress.completed_steps) =
      some [] ∧
    progress1.completed_steps = ["s1"] ∧
    some ([] : List String) ≠ some ["s1"] := by
  refine ⟨rfl, rfl, by decide⟩

/-- Filtering out an id that was absent from the original list undoes a
single append of that id. -/
theorem filter_append_absent (c : List String) (sid : String) (h : sid ∉ c) :
    (c ++ [sid]).filter (fun s => s ≠ sid) = c := by
  rw [List.filter_append]
  have h1 : c.filter (fun s => s ≠ sid) = c := by
    refine List.filter_eq_self.2 (fun a ha => ?_)
    simp only [ne_eq, decide_not, Bool.not_eq_false', decide_eq_false_iff_not,
      Bool.not_eq_true', decide_eq_true_eq]
    exact fun heq => h (heq ▸ ha)
  have h2 : ([sid] : List String).filter (fun s => s ≠ sid) = [] := by simp
  rw [h1, h2, List.append_nil]

/-- C4, amended: the round trip `toggleStep(id, true)` then
`toggleStep(id, false)` restores the pre-toggle `completed_steps` provided
the id was not already in the pre-toggle list (which is how the UI invokes
it); when the id was already present, the second toggle's filter also
removes the pre-existing occurrence. -/
theorem c4_amended_round_trip (token : String) (roadmap : Option CareerRoadmap)
    (up : UserProgress) (stepId : String) (h : stepId ∉ up.completed_steps) :
    ∃ up1 up2,
      (toggleStepCompletion (some token) roadmap (some up) stepId true
          FetchOutcome.ok).userProgress = some up1 ∧
      (toggleStepCompletion (some token) roadmap (some up1) stepId false
          FetchOutcome.ok).userProgress = some up2 ∧
      up2.completed_steps = up.completed_steps := by
  refine ⟨_, _, rfl, rfl, ?_⟩
  show (up.completed_steps ++ [stepId]).filter (fun s => s ≠ stepId) = up.completed_steps
  exact filter_append_absent up.completed_steps stepId h

/-- Witness for the amended C4 at a concrete input. -/
theorem c4_amended_witness :
    "s1" ∉ progress0.completed_steps ∧
    ∃ up1 up2,
      (toggleStepCompletion (some "t") (some roadmap1) (some progress0) "s1" true
          FetchOutcome.ok).userProgress = some up1 ∧
      (toggleStepCompletion (some "t") (some roadmap1) (some up1) "s1" false
          FetchOutcome.ok).userProgress = some up2 ∧
      up2.completed_steps = progress0.completed_steps :=
  ⟨by decide, c4_amended_round_trip "t" (some roadmap1) progress0 "s1" (by decide)⟩

/-- C2 fails on the code: on a roadmap with an empty step list, a successful
toggle stores `Infinity` (from `1 / 0`) as the percentage, not `0` — there
is no division-by-zero guard. -/
theorem c2_zero_steps_counterexample :
    ((toggleStepCompletion (some "t") (some roadmap0) (some progress0) "s1" true
        FetchOutcome.ok).userProgress.map UserProgress.progress_percentage) =
      some JSNum.inf ∧
    JSNum.inf ≠ JSNum.num 0 :=
  ⟨rfl, by decide⟩

/-- With a zero total, the recomputed percentage is `NaN` (when the updated
list is empty) or `Infinity` (otherwise), never a finite number. -/
theorem jsMul100_div_zero (a : ℕ) :
    (jsMul100 (jsDivNat a 0) = JSNum.nan ∨ jsMul100 (jsDivNat a 0) = JSNum.inf) ∧
    ∀ q : ℚ, jsMul100 (jsDivNat a 0) ≠ JSNum.num q := by
  by_cases ha : a = 0 <;> simp [jsDivNat, jsMul100, ha]

/-- C2, amended: there is no guard — for a roadmap whose step list is empty,
the percentage stored by a successful toggle is `NaN` or `Infinity` and in
particular never the finite value `0`. -/
theorem c2_amended_zero_steps (token : String) (r : CareerRoadmap)
    (up : UserProgress) (stepId : String) (completed : Bool) (h : r.steps = []) :
    ∃ up',
      (toggleStepCompletion (some token) (some r) (some up) stepId completed
          FetchOutcome.ok).userProgress = some up' ∧
      (up'.progress_percentage = JSNum.nan ∨ up'.progress_percentage = JSNum.inf) ∧
      ∀ q : ℚ, up'.progress_percentage ≠ JSNum.num q := by
  refine ⟨_, rfl, ?_⟩
  show (jsMul100 (jsDivNat _ ((Option.map (fun r => r.steps.length) (some r)).getD 0))
          = JSNum.nan ∨ _) ∧ _
  rw [Option.map_some', Option.getD_some, h, List.length_nil]
  exact jsMul100_div_zero _

/-- Witness for the amended C2 at a concrete input. -/
theorem c2_amended_witness :
    roadmap0.steps = [] ∧
    ∃ up',
      (toggleStepCompletion (some "t") (some roadmap0) (some progress0) "s1" true
          FetchOutcome.ok).userProgress = some up' ∧
      (up'.progress_percentage = JSNum.nan ∨ up'.progress_percentage = JSNum.inf) ∧
      ∀ q : ℚ, up'.progress_percentage ≠ JSNum.num q :=
  ⟨rfl, c2_amended_zero_steps "t" roadmap0 progress0 "s1" true rfl⟩

/-- C6 fails on the code once toggles overlap: `updatingStep` holds a single
id, so after pressing step `a` and then step `b` (both now in flight), the
checkbox of `a` is enabled again and a third press puts a second request for
`a` in flight. -/
theorem c6_overlap_breaks_guard :
    "a" ∈ (pressStep (pressStep initGuard "a") "b").inFlight ∧
    pressEnabled (pressStep (pressStep initGuard "a") "b") "a" = true ∧
    (pressStep (pressStep (pressStep initGuard "a") "b") "a").inFlight =
      ["a", "b", "a"] ∧
    ¬ (pressStep (pressStep (pressStep initGuard "a") "b") "a").inFlight.Nodup := by
  decide

/-- C6, amended: the guard only tracks the most recent toggle — immediately
after a press of step `s`, further presses of `s` are disabled while presses
of any other step stay enabled; the guard does not persist across an
overlapping press of a different step. -/
theorem c6_amended_guard_most_recent (st : GuardState) (s t : String) (h : t ≠ s) :
    pressEnabled (pressStep st s) s = false ∧
    pressEnabled (pressStep st s) t = true := by
  by_cases hs : st.updatingStep = some s
  · constructor <;> simp [pressStep, pressEnabled, hs, Ne.symm h]
  · constructor <;> simp [pressStep, pressEnabled, hs, Ne.symm h]

/-- Witness for the amended C6 at a concrete input. -/
theorem c6_amended_witness :
    ("b" : String) ≠ "a" ∧
    pressEnabled (pressStep initGuard "a") "a" = false ∧
    pressEnabled (pressStep initGuard "a") "b" = true :=
  ⟨by decide, (c6_amended_guard_most_recent initGuard "a" "b" (by decide)).1,
    (c6_amended_guard_most_recent initGuard "a" "b" (by decide)).2⟩

/-- C7: app-start routing is a total function of the stored credentials —
a failed store read or an absent token leaves the user at the
unauthenticated landing entry; a token with a cached user whose
`selected_stream` is unset (or empty) routes to stream selection; a token
with the stream set routes to the dashboard; a token whose cached user
record is missing routes back to login. -/
theorem c7_session_bootstrap_routes (storeOk : Bool) (store : CredentialStore) :
    sessionBootstrap storeOk store =
      if storeOk = false ∨ store.auth_token = none then Route.landing
      else
        match store.user_data with
        | none => Route.login
        | some u =>
            if strTruthy u.selected_stream then Route.dashboard
            else Route.streamSelection := by
  rcases store with ⟨tok, ud⟩
  cases storeOk <;> cases tok <;> cases ud <;>
    simp [sessionBootstrap, checkAuthStatus, initializeDataRoute]

/-- C8: when the server rejects a login whose fields passed local
validation, the client stores neither token nor user, performs no
navigation (the user stays on the login screen), and alerts with the
server-provided message (falling back to a generic one). -/
theorem c8_login_rejected_persists_nothing (email password : String)
    (detail : Option String) (h1 : email ≠ "") (h2 : password ≠ "")
    (h3 : jsIncludesChar email '@' = true) :
    handleLogin email password (ServerResult.rejected detail) =
      { requestSent := true, storedToken := none, storedUser := none,
        alertShown := some ("Login Failed: " ++ jsOrString detail "Invalid credentials"),
        route := none } := by
  rw [handleLogin, if_neg, if_neg]
  · simp [h3]
  · simp [h1, h2]

/-- Witness for C8 at a concrete input. -/
theorem c8_witness :
    ("a@b.c" : String) ≠ "" ∧ ("pw" : String) ≠ "" ∧
    jsIncludesChar "a@b.c" '@' = true ∧
    handleLogin "a@b.c" "pw" (ServerResult.rejected (some "User not found")) =
      { requestSent := true, storedToken := none, storedUser := none,
        alertShown := some "Login Failed: User not found", route := none } :=
  ⟨by decide, by decide, by decide,
    c8_login_rejected_persists_nothing "a@b.c" "pw" (some "User not found")
      (by decide) (by decide) (by decide)⟩

/-- C9: `handleRegister` issues its network request exactly when every local
validation check passes — all four fields non-empty, name of length at least
2, email containing `@`, password of length at least 6, and password equal
to the confirmation; in particular a password/confirmation mismatch always
blocks the request. -/
theorem c9_register_validates_before_request (f : RegisterForm) (server : ServerResult) :
    (handleRegister f server).requestSent = true ↔
      (f.name ≠ "" ∧ f.email ≠ "" ∧ f.password ≠ "" ∧ f.confirmPassword ≠ "" ∧
       2 ≤ f.name.length ∧ jsIncludesChar f.email '@' = true ∧
       6 ≤ f.password.length ∧ f.password = f.confirmPassword) := by
  have hreq : (handleRegister f server).requestSent = validateForm f := by
    rw [handleRegister.eq_def]
    by_cases hv : validateForm f
    · rw [if_pos hv, hv]; cases server <;> rfl
    · rw [if_neg hv]; simp only [Bool.not_eq_true] at hv; rw [hv]
  rw [hreq, validateForm, validateFormAlert]
  by_cases hA : f.name = "" ∨ f.email = "" ∨ f.password = "" ∨ f.confirmPassword = ""
  · rw [if_pos hA]
    simp only [Option.isNone_some, Bool.false_eq_true, false_iff]
    rintro ⟨k1, k2, k3, k4, -⟩
    rcases hA with h | h | h | h
    · exact k1 h
    · exact k2 h
    · exact k3 h
    · exact k4 h
  · rw [if_neg hA]
    by_cases hB : f.name.length < 2
    · rw [if_pos hB]
      simp only [Option.isNone_some, Bool.false_eq_true, false_iff]
      rintro ⟨-, -, -, -, hlen, -⟩
      omega
    · rw [if_neg hB]
      by_cases hC : ¬ jsIncludesChar f.email '@'
      · rw [if_pos hC]
        simp only [Option.isNone_some, Bool.false_eq_true, false_iff]
        rintro ⟨-, -, -, -, -, hin, -⟩
        exact hC hin
      · rw [if_neg hC]
        by_cases hD : f.password.length < 6
        · rw [if_pos hD]
          simp only [Option.isNone_some, Bool.false_eq_true, false_iff]
          rintro ⟨-, -, -, -, -, -, hlen, -⟩
          omega
        · rw [if_neg hD]
          by_cases hE : f.password ≠ f.confirmPassword
          · rw [if_pos hE]
            simp only [Option.isNone_some, Bool.false_eq_true, false_iff]
            rintro ⟨-, -, -, -, -, -, -, heq⟩
            exact hE heq
          · rw [if_neg hE]
            constructor
            · intro _
              push_neg at hA
              exact ⟨hA.1, hA.2.1, hA.2.2.1, hA.2.2.2, by omega, not_not.1 hC,
                by omega, not_not.1 hE⟩
            · intro _
              rfl

/-- A duplicate-free list contained in a duplicate-free list is no longer. -/
theorem nodup_subset_length_le (c ids : List String) (hc : c.Nodup)
    (hids : ids.Nodup) (hsub : c ⊆ ids) : c.length ≤ ids.length := by
  have h1 : c.toFinset ⊆ ids.toFinset :=
    fun x hx => List.mem_toFinset.2 (hsub (List.mem_toFinset.1 hx))
  have h2 := Finset.card_le_card h1
  rwa [List.toFinset_card_of_nodup hc, List.toFinset_card_of_nodup hids] at h2

/-- For duplicate-free lists, a sublist-by-membership has equal length
exactly when it exhausts the larger list. -/
theorem nodup_subset_length_eq_iff (c ids : List String) (hc : c.Nodup)
    (hids : ids.Nodup) (hsub : c ⊆ ids) :
    c.length = ids.length ↔ ∀ x ∈ ids, x ∈ c := by
  constructor
  · intro hlen x hx
    have h1 : c.toFinset ⊆ ids.toFinset :=
      fun y hy => List.mem_toFinset.2 (hsub (List.mem_toFinset.1 hy))
    have h2 : ids.toFinset.card ≤ c.toFinset.card := by
      rw [List.toFinset_card_of_nodup hc, List.toFinset_card_of_nodup hids, hlen]
    have h3 := Finset.eq_of_subset_of_card_le h1 h2
    have h4 : x ∈ ids.toFinset := List.mem_toFinset.2 hx
    rw [← h3] at h4
    exact List.mem_toFinset.1 h4
  · intro hcov
    exact Nat.le_antisymm (nodup_subset_length_le c ids hc hids hsub)
      (nodup_subset_length_le ids c hids hc (fun x hx => hcov x hx))

/-- Arithmetic facts about the percentage value `k / n * 100` over exact
rationals, for `0 < n` and `k ≤ n`. -/
theorem pct_facts (k n : ℕ) (hn : 0 < n) (hk : k ≤ n) :
    0 ≤ (k : ℚ) / (n : ℚ) * 100 ∧ (k : ℚ) / (n : ℚ) * 100 ≤ 100 ∧
    ((k : ℚ) / (n : ℚ) * 100 = 100 ↔ k = n) := by
  have hn' : (0 : ℚ) < (n : ℚ) := by exact_mod_cast hn
  have hk' : (k : ℚ) ≤ (n : ℚ) := by exact_mod_cast hk
  refine ⟨by positivity, ?_, ?_⟩
  · have h1 : (k : ℚ) / (n : ℚ) ≤ 1 := (div_le_one hn').2 hk'
    nlinarith
  · rw [div_mul_eq_mul_div, div_eq_iff (ne_of_gt hn')]
    constructor
    · intro h
      have h2 : (k : ℚ) = (n : ℚ) := by linarith
      exact_mod_cast h2
    · intro h
      rw [h]
      ring

/-- C1 fails on the code: from the state where step `s1` of a one-step
roadmap is already completed, a successful `toggleStep("s1", true)` appends
a duplicate and stores `progress_percentage = 200`, violating
`0 <= pct <= 100`, and the completed list covers every step id while the
percentage is not `100`, violating the stated equivalence. -/
theorem c1_invariant_counterexample :
    ((toggleStepCompletion (some "t") (some roadmap1) (some progress1) "s1" true
        FetchOutcome.ok).userProgress.map UserProgress.progress_percentage) =
      some (JSNum.num 200) ∧
    ¬ ((200 : ℚ) ≤ 100) ∧
    ((toggleStepCompletion (some "t") (some roadmap1) (some progress1) "s1" true
        FetchOutcome.ok).userProgress.map UserProgress.completed_steps) =
      some ["s1", "s1"] ∧
    (∀ x ∈ roadmap1.steps.map RoadmapStep.id, x ∈ (["s1", "s1"] : List String)) ∧
    JSNum.num 200 ≠ JSNum.num 100 := by
  refine ⟨?_, by norm_num, rfl, by decide, ?_⟩
  · have h : (toggleStepCompletion (some "t") (some roadmap1) (some progress1) "s1" true
        FetchOutcome.ok).userProgress.map UserProgress.progress_percentage =
        some (jsMul100 (jsDivNat 2 1)) := rfl
    rw [h, jsDivNat]
    norm_num [jsMul100]
  · simp only [ne_eq, JSNum.num.injEq]
    norm_num

/-- C1, amended: under the conditions the UI maintains — duplicate-free
roadmap step ids, a duplicate-free `completed_steps` containing only ids of
the roadmap, a toggled step belonging to the roadmap, the toggle direction
taken from `!isStepCompleted` as the checkbox does, and a non-empty step
list — every successful toggle stores exactly
`(|completed_steps| / total_steps) * 100`, that value lies in `[0, 100]`,
and it equals `100` precisely when `completed_steps` covers every step id. -/
theorem c1_amended_invariant (token : String) (r : CareerRoadmap) (up : UserProgress)
    (stepId : String) (completed : Bool)
    (hids : (r.steps.map RoadmapStep.id).Nodup)
    (hnd : up.completed_steps.Nodup)
    (hsub : up.completed_steps ⊆ r.steps.map RoadmapStep.id)
    (hstep : stepId ∈ r.steps.map RoadmapStep.id)
    (hui : completed = !(isStepCompleted (some up) stepId))
    (hne : r.steps ≠ []) :
    ∃ up',
      (toggleStepCompletion (some token) (some r) (some up) stepId completed
          FetchOutcome.ok).userProgress = some up' ∧
      up'.progress_percentage =
        JSNum.num ((up'.completed_steps.length : ℚ) / (r.steps.length : ℚ) * 100) ∧
      0 ≤ (up'.completed_steps.length : ℚ) / (r.steps.length : ℚ) * 100 ∧
      (up'.completed_steps.length : ℚ) / (r.steps.length : ℚ) * 100 ≤ 100 ∧
      ((up'.completed_steps.length : ℚ) / (r.steps.length : ℚ) * 100 = 100 ↔
        ∀ x ∈ r.steps.map RoadmapStep.id, x ∈ up'.completed_steps) := by
  have hnlen : 0 < r.steps.length := List.length_pos.2 hne
  have hlenids : (r.steps.map RoadmapStep.id).length = r.steps.length :=
    List.length_map _ _
  have key : ∀ cs : List String, cs.Nodup → cs ⊆ r.steps.map RoadmapStep.id →
      (jsMul100 (jsDivNat cs.length r.steps.length) =
        JSNum.num ((cs.length : ℚ) / (r.steps.length : ℚ) * 100)) ∧
      0 ≤ (cs.length : ℚ) / (r.steps.length : ℚ) * 100 ∧
      (cs.length : ℚ) / (r.steps.length : ℚ) * 100 ≤ 100 ∧
      ((cs.length : ℚ) / (r.steps.length : ℚ) * 100 = 100 ↔
        ∀ x ∈ r.steps.map RoadmapStep.id, x ∈ cs) := by
    intro cs h1 h2
    have hlen : cs.length ≤ r.steps.length := by
      have := nodup_subset_length_le cs (r.steps.map RoadmapStep.id) h1 hids h2
      omega
    obtain ⟨p1, p2, p3⟩ := pct_facts cs.length r.steps.length hnlen hlen
    refine ⟨?_, p1, p2, ?_⟩
    · rw [jsDivNat, if_neg (by omega), jsMul100]
    · rw [p3, ← hlenids]
      exact nodup_subset_length_eq_iff cs (r.steps.map RoadmapStep.id) h1 hids h2
  cases hmem : up.completed_steps.contains stepId with
  | false =>
    have hnotmem : stepId ∉ up.completed_steps := by simpa using hmem
    have hc : completed = true := by
      rw [hui]
      simp only [isStepCompleted, Option.map_some', Option.getD_some, hmem]
      rfl
    subst hc
    refine ⟨_, rfl, ?_⟩
    have hnd' : (up.completed_steps ++ [stepId]).Nodup := by
      rw [List.nodup_append]
      exact ⟨hnd, List.nodup_singleton _,
        by simpa [List.disjoint_singleton] using hnotmem⟩
    have hsub' : (up.completed_steps ++ [stepId]) ⊆ r.steps.map RoadmapStep.id := by
      intro x hx
      rcases List.mem_append.1 hx with h | h
      · exact hsub h
      · rw [List.mem_singleton.1 h]; exact hstep
    simpa using key (up.completed_steps ++ [stepId]) hnd' hsub'
  | true =>
    have hc : completed = false := by
      rw [hui]
      simp only [isStepCompleted, Option.map_some', Option.getD_some, hmem]
      rfl
    subst hc
    refine ⟨_, rfl, ?_⟩
    have hnd' : (up.completed_steps.filter (fun s => s ≠ stepId)).Nodup :=
      hnd.filter _
    have hsub' : (up.completed_steps.filter (fun s => s ≠ stepId)) ⊆
        r.steps.map RoadmapStep.id :=
      fun x hx => hsub (List.mem_of_mem_filter hx)
    simpa using key (up.completed_steps.filter (fun s => s ≠ stepId)) hnd' hsub'

/-- Witness for the amended C1 at a concrete input. -/
theorem c1_amended_witness :
    (roadmap1.steps.map RoadmapStep.id).Nodup ∧
    progress0.completed_steps.Nodup ∧
    progress0.completed_steps ⊆ roadmap1.steps.map RoadmapStep.id ∧
    "s1" ∈ roadmap1.steps.map RoadmapStep.id ∧
    (true = !(isStepCompleted (some progress0) "s1")) ∧
    roadmap1.steps ≠ [] ∧
    (∃ up',
      (toggleStepCompletion (some "t") (some roadmap1) (some progress0) "s1" true
          FetchOutcome.ok).userProgress = some up' ∧
      up'.progress_percentage =
        JSNum.num ((up'.completed_steps.length : ℚ) / (roadmap1.steps.length : ℚ) * 100) ∧
      0 ≤ (up'.completed_steps.length : ℚ) / (roadmap1.steps.length : ℚ) * 100 ∧
      (up'.completed_steps.length : ℚ) / (roadmap1.steps.length : ℚ) * 100 ≤ 100 ∧
      ((up'.completed_steps.length : ℚ) / (roadmap1.steps.length : ℚ) * 100 = 100 ↔
        ∀ x ∈ roadmap1.steps.map RoadmapStep.id, x ∈ up'.completed_steps)) :=
  ⟨by decide, by decide, List.nil_subset _, by decide, by decide, by decide,
    c1_amended_invariant "t" roadmap1 progress0 "s1" true (by decide) (by decide)
      (List.nil_subset _) (by decide) (by decide) (by decide)⟩
